import Mathlib

/-!
Verification of the trading core: the moving-average crossover signal
generator (`src/models/signal_generator.py`) and the trade-execution
dispatcher (`src/trading_engine.py`).

Prices are modelled as `Option ℚ` (`none` stands for a NaN float value),
a pandas DataFrame as an association list of named columns together with
its row count, and the ccxt exchange gateway as a pair of order-placing
functions that either return an order result or fail with one of the
categorized errors.
-/

/-- A pandas DataFrame: named columns of (possibly NaN) numeric values.
`wf` records the pandas invariant that every column has the row count's
length. -/
structure DataFrame where
  cols : List (String × List (Option ℚ))
  nrows : ℕ
  wf : ∀ c ∈ cols, (Prod.snd c).length = nrows

/-- `'close' in df.columns` / `df['close']`: the close column, when present. -/
def DataFrame.getClose (df : DataFrame) : Option (List (Option ℚ)) :=
  (df.cols.find? (fun c => c.1 == "close")).map Prod.snd

/-- A DataFrame holding a single `close` column, as built by
`pd.DataFrame({'close': [...]})` in the repository's own test driver. -/
def mkCloseDF (close : List (Option ℚ)) : DataFrame where
  cols := [("close", close)]
  nrows := close.length
  wf := by
    intro c hc
    rw [List.mem_singleton] at hc
    rw [hc]

/-- A Python value passed to `generate_signal`: either a DataFrame or
anything else (`None`, a plain list, ...). -/
inductive PyObject where
  | df (d : DataFrame)
  | other

/-- One entry of `series.rolling(window=w).mean()`: NaN while the window is
incomplete (`i + 1 < w`) or when the window contains a NaN, otherwise the
mean of the `w` trailing values. -/
def smaEntry (w : ℕ) (xs : List (Option ℚ)) (i : ℕ) : Option ℚ :=
  if i + 1 < w then none
  else
    let window := (xs.drop (i + 1 - w)).take w
    if window.all Option.isSome then some ((window.filterMap id).sum / (w : ℚ))
    else none

/-- `series.rolling(window=w).mean()` over the whole series. -/
def rollingMean (w : ℕ) (xs : List (Option ℚ)) : List (Option ℚ) :=
  (List.range xs.length).map (smaEntry w xs)

/-- `series.isna().sum()`: how many entries are NaN. -/
def nanCount (xs : List (Option ℚ)) : ℕ :=
  xs.countP (fun o => o.isNone)

/-- `series.iloc[-1]` (the series is nonempty wherever the code reads it). -/
def iloc1 (xs : List (Option ℚ)) : Option ℚ :=
  xs.getD (xs.length - 1) none

/-- `series.iloc[-2]`. -/
def iloc2 (xs : List (Option ℚ)) : Option ℚ :=
  xs.getD (xs.length - 2) none

/-- The tail of `MovingAverageCrossoverSignalGenerator.generate_signal`:
the `pd.isna` check on the four trailing averages followed by the
crossover decision rule. -/
def crossoverDecision (cs ps cl pl : Option ℚ) : String :=
  match cs, ps, cl, pl with
  | some cs, some ps, some cl, some pl =>
    if cl < cs ∧ ps ≤ pl then "BUY"
    else if cs < cl ∧ pl ≤ ps then "SELL"
    else "HOLD"
  | _, _, _, _ => "HOLD"

/-- The state of a constructed `MovingAverageCrossoverSignalGenerator`. -/
structure MAGen where
  short_window : ℕ
  long_window : ℕ

/-- `MovingAverageCrossoverSignalGenerator.__init__`: raises `ValueError`
iff `short_window >= long_window`, otherwise stores both windows. -/
def MAGen.mk? (s l : ℕ) : Except String MAGen :=
  if l ≤ s then Except.error "short_window must be less than long_window"
  else Except.ok ⟨s, l⟩

/-- `MovingAverageCrossoverSignalGenerator.generate_signal`, line for line:
the isinstance / empty / missing-column / insufficient-length guards, the
two rolling means, the NaN-count guard, and the crossover decision on the
four trailing averages. -/
def generate_signal (g : MAGen) (historical_data : PyObject) : String :=
  match historical_data with
  | PyObject.other => "HOLD"
  | PyObject.df df =>
    if df.cols = [] ∨ df.nrows = 0 then "HOLD"
    else if (df.getClose).isNone then "HOLD"
    else if df.nrows < g.long_window then "HOLD"
    else
      let close := (df.getClose).getD []
      let sma_short := rollingMean g.short_window close
      let sma_long := rollingMean g.long_window close
      if sma_short.length - 1 ≤ nanCount sma_short ∨
          sma_long.length - 1 ≤ nanCount sma_long then "HOLD"
      else
        crossoverDecision (iloc1 sma_short) (iloc2 sma_short)
          (iloc1 sma_long) (iloc2 sma_long)

/-- The categorized ccxt exceptions caught by `execute_trade`. -/
inductive CcxtError where
  | insufficientFunds
  | networkError
  | exchangeError
  | unknown

/-- A gateway order call, recorded so that "no gateway call is made" is a
provable statement. -/
inductive OrderCall where
  | marketBuy (symbol : String) (quantity : ℚ)
  | marketSell (symbol : String) (quantity : ℚ)

/-- The ccxt exchange object: each order method returns the order result
or raises one of the categorized errors. `α` is the type of the raw
order-result value. -/
structure Exchange (α : Type) where
  create_market_buy_order : String → ℚ → Except CcxtError α
  create_market_sell_order : String → ℚ → Except CcxtError α

/-- `ExchangeHandler`: its `exchange` attribute may be `None`. -/
structure ExchangeHandler (α : Type) where
  exchange : Option (Exchange α)

/-- `TradingEngine`: holds the (possibly missing) exchange handler. -/
structure TradingEngine (α : Type) where
  exchange_handler : Option (ExchangeHandler α)

/-- `TradingEngine.execute_trade`. Returns the order result (`none` models
Python `None`) together with the list of gateway calls made. Every
`except` arm of the source returns `None`, so a failing gateway call
yields `none` with the call recorded. -/
def TradingEngine.execute_trade {α : Type} (eng : TradingEngine α)
    (symbol : String) (signal : String) (quantity : ℚ) :
    Option α × List OrderCall :=
  match eng.exchange_handler with
  | none => (none, [])
  | some handler =>
    match handler.exchange with
    | none => (none, [])
    | some ex =>
      if signal = "BUY" then
        match ex.create_market_buy_order symbol quantity with
        | Except.ok r => (some r, [OrderCall.marketBuy symbol quantity])
        | Except.error _ => (none, [OrderCall.marketBuy symbol quantity])
      else if signal = "SELL" then
        match ex.create_market_sell_order symbol quantity with
        | Except.ok r => (some r, [OrderCall.marketSell symbol quantity])
        | Except.error _ => (none, [OrderCall.marketSell symbol quantity])
      else if signal = "HOLD" then (none, [])
      else (none, [])

/-- An engine whose gateway is properly initialized with exchange `ex`. -/
def engineOf {α : Type} (ex : Exchange α) : TradingEngine α :=
  ⟨some ⟨some ex⟩⟩

/-- The crossover generator of the spec's concrete scenario. -/
def g35 : MAGen := ⟨3, 5⟩

/-- The close series of the spec's concrete bullish scenario. -/
def bullishCloses : List (Option ℚ) :=
  [some 20, some 19, some 18, some 17, some 16, some 15, some 18, some 22, some 23]

/-- Whether the short SMA strictly exceeds the long SMA at index `i`
(false when either is NaN). -/
def shortAboveLong (xs : List (Option ℚ)) (s l i : ℕ) : Bool :=
  match smaEntry s xs i, smaEntry l xs i with
  | some a, some b => decide (b < a)
  | _, _ => false

/-- C6: `MovingAverageCrossover` construction raises iff
`short_window >= long_window`; with `short_window < long_window` it
succeeds and stores both windows. -/
theorem C6_constructor_invariant (s l : ℕ) :
    (l ≤ s → MAGen.mk? s l =
      Except.error "short_window must be less than long_window") ∧
    (s < l → MAGen.mk? s l = Except.ok ⟨s, l⟩) := by
  constructor
  · intro h
    rw [MAGen.mk?, if_pos h]
  · intro h
    rw [MAGen.mk?, if_neg (by omega)]

/-- C7: `execute_trade` with signal `HOLD`, and with every unrecognized
signal value (any string that is none of `"BUY"`, `"SELL"`, `"HOLD"`,
such as `"WAIT"`), makes no gateway call and returns `None`, for every
engine, symbol and quantity. -/
theorem C7_hold_and_unrecognized {α : Type} (eng : TradingEngine α)
    (symbol : String) (q : ℚ) (signal : String)
    (hunrec : signal ≠ "BUY" ∧ signal ≠ "SELL" ∧ signal ≠ "HOLD") :
    eng.execute_trade symbol "HOLD" q = (none, []) ∧
    eng.execute_trade symbol signal q = (none, []) := by
  rcases eng with ⟨_ | ⟨_ | ex⟩⟩
  · exact ⟨rfl, rfl⟩
  · exact ⟨rfl, rfl⟩
  · refine ⟨rfl, ?_⟩
    show (if signal = "BUY" then _ else
      if signal = "SELL" then _ else
      if signal = "HOLD" then ((none : Option α), ([] : List OrderCall))
      else (none, [])) = _
    rw [if_neg hunrec.1, if_neg hunrec.2.1, if_neg hunrec.2.2]

/-- C7 witness: the unrecognized signal `"WAIT"` on an initialized
engine: no gateway call, `None` returned. -/
theorem C7_hold_and_unrecognized_witness :
    (engineOf (⟨fun _ _ => Except.ok 42, fun _ _ => Except.ok 7⟩ :
        Exchange ℕ)).execute_trade "BTC/USDT" "WAIT" 10 = (none, []) :=
  (C7_hold_and_unrecognized _ "BTC/USDT" 10 "WAIT"
    ⟨by decide, by decide, by decide⟩).2

/-- C8: when the gateway order call fails with any of the categorized
errors during a `BUY` or `SELL` dispatch, `execute_trade` returns `None`
and the exception does not reach the caller; every category gives the
same outcome. -/
theorem C8_failure_absorbed {α : Type} (ex : Exchange α) (symbol : String)
    (q : ℚ) (e e' : CcxtError)
    (hb : ex.create_market_buy_order symbol q = Except.error e)
    (hs : ex.create_market_sell_order symbol q = Except.error e') :
    (engineOf ex).execute_trade symbol "BUY" q =
      (none, [OrderCall.marketBuy symbol q]) ∧
    (engineOf ex).execute_trade symbol "SELL" q =
      (none, [OrderCall.marketSell symbol q]) := by
  constructor
  · show (match ex.create_market_buy_order symbol q with
      | Except.ok r => (some r, [OrderCall.marketBuy symbol q])
      | Except.error _ => (none, [OrderCall.marketBuy symbol q])) = _
    rw [hb]
  · show (match ex.create_market_sell_order symbol q with
      | Except.ok r => (some r, [OrderCall.marketSell symbol q])
      | Except.error _ => (none, [OrderCall.marketSell symbol q])) = _
    rw [hs]

/-- C8 witness: a concrete exchange failing with two different error
categories; both dispatches return `None`. -/
theorem C8_failure_absorbed_witness :
    (engineOf (⟨fun _ _ => Except.error CcxtError.networkError,
        fun _ _ => Except.error CcxtError.insufficientFunds⟩ :
        Exchange ℕ)).execute_trade "BTC/USDT" "BUY" 1 =
      (none, [OrderCall.marketBuy "BTC/USDT" 1]) :=
  (C8_failure_absorbed _ "BTC/USDT" 1 CcxtError.networkError
    CcxtError.insufficientFunds rfl rfl).1

/-- C9: when the gateway order call succeeds, `execute_trade` returns the
gateway's order-result value itself, unmodified. -/
theorem C9_result_passthrough {α : Type} (ex : Exchange α) (symbol : String)
    (q : ℚ) (r r' : α)
    (hb : ex.create_market_buy_order symbol q = Except.ok r)
    (hs : ex.create_market_sell_order symbol q = Except.ok r') :
    (engineOf ex).execute_trade symbol "BUY" q =
      (some r, [OrderCall.marketBuy symbol q]) ∧
    (engineOf ex).execute_trade symbol "SELL" q =
      (some r', [OrderCall.marketSell symbol q]) := by
  constructor
  · show (match ex.create_market_buy_order symbol q with
      | Except.ok r => (some r, [OrderCall.marketBuy symbol q])
      | Except.error _ => (none, [OrderCall.marketBuy symbol q])) = _
    rw [hb]
  · show (match ex.create_market_sell_order symbol q with
      | Except.ok r => (some r, [OrderCall.marketSell symbol q])
      | Except.error _ => (none, [OrderCall.marketSell symbol q])) = _
    rw [hs]

/-- C9 witness: a concrete succeeding exchange; the returned pair holds
exactly the gateway's result value. -/
theorem C9_result_passthrough_witness :
    (engineOf (⟨fun _ _ => Except.ok 42, fun _ _ => Except.ok 7⟩ :
        Exchange ℕ)).execute_trade "BTC/USDT" "SELL" 2 =
      (some 7, [OrderCall.marketSell "BTC/USDT" 2]) :=
  (C9_result_passthrough _ "BTC/USDT" 2 42 7 rfl rfl).2

/-- C10: dispatch is exact, case-sensitive string matching: any signal
other than `"BUY"` and `"SELL"` (this includes `"HOLD"`, `"buy"`,
`"sell"` and every other string) makes no gateway call and returns
`None`. -/
theorem C10_exact_string_dispatch {α : Type} (eng : TradingEngine α)
    (symbol : String) (q : ℚ) (signal : String)
    (h1 : signal ≠ "BUY") (h2 : signal ≠ "SELL") :
    eng.execute_trade symbol signal q = (none, []) := by
  rcases eng with ⟨_ | ⟨_ | ex⟩⟩
  · rfl
  · rfl
  · show (if signal = "BUY" then _ else
      if signal = "SELL" then _ else
      if signal = "HOLD" then ((none : Option α), ([] : List OrderCall))
      else (none, [])) = _
    rw [if_neg h1, if_neg h2]
    by_cases h3 : signal = "HOLD"
    · rw [if_pos h3]
    · rw [if_neg h3]

/-- C10 witness: the lowercase `"buy"` is not matched: no gateway call,
`None` returned. -/
theorem C10_exact_string_dispatch_witness :
    (engineOf (⟨fun _ _ => Except.ok 42, fun _ _ => Except.ok 7⟩ :
        Exchange ℕ)).execute_trade "BTC/USDT" "buy" 1 = (none, []) :=
  C10_exact_string_dispatch _ "BTC/USDT" 1 "buy" (by decide) (by decide)

/-- C3: on the growing prefixes (lengths 5..9) of the bullish scenario
series with windows (3, 5), the verdicts are HOLD, HOLD, HOLD, BUY, HOLD:
exactly one BUY, at the first prefix whose short SMA exceeds the long SMA
after being at-or-below it on every earlier index, and no BUY before. -/
theorem C3_bullish_scenario :
    generate_signal g35 (PyObject.df (mkCloseDF (bullishCloses.take 5))) = "HOLD" ∧
    generate_signal g35 (PyObject.df (mkCloseDF (bullishCloses.take 6))) = "HOLD" ∧
    generate_signal g35 (PyObject.df (mkCloseDF (bullishCloses.take 7))) = "HOLD" ∧
    generate_signal g35 (PyObject.df (mkCloseDF (bullishCloses.take 8))) = "BUY" ∧
    generate_signal g35 (PyObject.df (mkCloseDF (bullishCloses.take 9))) = "HOLD" ∧
    shortAboveLong bullishCloses 3 5 4 = false ∧
    shortAboveLong bullishCloses 3 5 5 = false ∧
    shortAboveLong bullishCloses 3 5 6 = false ∧
    shortAboveLong bullishCloses 3 5 7 = true := by
  refine ⟨?_, ?_, ?_, ?_, ?_, ?_, ?_, ?_, ?_⟩ <;>
    norm_num [generate_signal, g35, mkCloseDF, DataFrame.getClose, bullishCloses,
      rollingMean, smaEntry, nanCount, iloc1, iloc2, crossoverDecision, shortAboveLong,
      List.find?, List.range_succ, List.filterMap_cons, List.sum_cons, List.countP_cons]

theorem length_rollingMean (w : ℕ) (xs : List (Option ℚ)) :
    (rollingMean w xs).length = xs.length := by
  simp [rollingMean]

theorem getD_rollingMean (w : ℕ) (xs : List (Option ℚ)) (i : ℕ)
    (h : i < xs.length) :
    (rollingMean w xs).getD i none = smaEntry w xs i := by
  rw [List.getD_eq_getElem _ _ (by simpa [length_rollingMean])]
  simp [rollingMean]

theorem smaEntry_eq_none_of_lt (w : ℕ) (xs : List (Option ℚ)) (i : ℕ)
    (h : i + 1 < w) : smaEntry w xs i = none := by
  simp [smaEntry, h]

theorem window_le_of_smaEntry_isSome (w : ℕ) (xs : List (Option ℚ)) (i : ℕ)
    (h : (smaEntry w xs i).isSome) : w ≤ i + 1 := by
  by_contra hcon
  rw [smaEntry_eq_none_of_lt w xs i (by omega)] at h
  simp at h

theorem nanCount_add_someCount (xs : List (Option ℚ)) :
    nanCount xs + xs.countP (fun o => o.isSome) = xs.length := by
  induction xs with
  | nil => rfl
  | cons a t ih =>
    cases a <;> simp [nanCount, List.countP_cons] at * <;> omega

theorem countP_lt_range (k n : ℕ) :
    (List.range n).countP (fun i => decide (i < k)) = min k n := by
  induction n with
  | zero => simp
  | succ m ih =>
    rw [List.range_succ, List.countP_append, ih]
    by_cases h : m < k <;> simp [List.countP_cons, h] <;> omega

theorem nanCount_rollingMean_of_short (w : ℕ) (xs : List (Option ℚ))
    (hle : xs.length ≤ w) :
    xs.length - 1 ≤ nanCount (rollingMean w xs) := by
  have hmono : (List.range xs.length).countP (fun i => decide (i < xs.length - 1)) ≤
      (List.range xs.length).countP (fun i => (smaEntry w xs i).isNone) := by
    apply List.countP_mono_left
    intro i _ hi
    rw [smaEntry_eq_none_of_lt w xs i (by simp at hi; omega)]
    rfl
  rw [countP_lt_range] at hmono
  calc xs.length - 1 = min (xs.length - 1) xs.length := by omega
    _ ≤ _ := hmono
    _ = nanCount (rollingMean w xs) := by
      rw [nanCount, rollingMean, List.countP_map]
      rfl

/-- C4: for a tabular series with a close field and length at least
`long_window`, whenever the count of NaN values in either SMA series is at
least the series length minus one, `generate_signal` returns HOLD; the
guard is the literal count comparison of the source. -/
theorem C4_nan_count_guard (g : MAGen) (df : DataFrame)
    (close : List (Option ℚ))
    (hc : df.getClose = some close) (hn : g.long_window ≤ df.nrows)
    (hguard : (rollingMean g.short_window close).length - 1 ≤
        nanCount (rollingMean g.short_window close) ∨
      (rollingMean g.long_window close).length - 1 ≤
        nanCount (rollingMean g.long_window close)) :
    generate_signal g (PyObject.df df) = "HOLD" := by
  simp only [generate_signal]
  by_cases he : df.cols = [] ∨ df.nrows = 0
  · rw [if_pos he]
  · rw [if_neg he, hc]
    rw [if_neg (by simp)]
    rw [if_neg (by omega)]
    simp only [Option.getD_some]
    rw [if_pos hguard]

/-- C4 witness: windows (3, 5) on a five-value series: the long SMA has
four NaN entries, the guard fires, the verdict is HOLD. -/
theorem C4_nan_count_guard_witness :
    generate_signal g35
      (PyObject.df (mkCloseDF [some 1, some 2, some 3, some 4, some 5])) =
      "HOLD" :=
  C4_nan_count_guard g35 (mkCloseDF [some 1, some 2, some 3, some 4, some 5])
    [some 1, some 2, some 3, some 4, some 5] rfl (by decide)
    (Or.inr (by decide))

/-- C5: a non-tabular input (`None`, a plain list, anything that is not a
DataFrame), an empty DataFrame, or a DataFrame without a `close` column
always yields HOLD (and the embedding is a total function: no exception). -/
theorem C5_malformed_input (g : MAGen) (x : PyObject)
    (h : x = PyObject.other ∨ ∃ df : DataFrame, x = PyObject.df df ∧
      (df.cols = [] ∨ df.nrows = 0 ∨ df.getClose = none)) :
    generate_signal g x = "HOLD" := by
  rcases h with rfl | ⟨df, rfl, hdf⟩
  · rfl
  · simp only [generate_signal]
    rcases hdf with h1 | h2 | h3
    · rw [if_pos (Or.inl h1)]
    · rw [if_pos (Or.inr h2)]
    · by_cases he : df.cols = [] ∨ df.nrows = 0
      · rw [if_pos he]
      · rw [if_neg he, if_pos (by simp [h3])]

/-- C5 witness: a non-DataFrame input yields HOLD. -/
theorem C5_malformed_input_witness :
    generate_signal g35 PyObject.other = "HOLD" :=
  C5_malformed_input g35 PyObject.other (Or.inl rfl)

theorem two_le_someCount (xs : List (Option ℚ)) (i j : ℕ) (hij : i < j)
    (hj : j < xs.length)
    (hsi : (xs.getD i none).isSome) (hsj : (xs.getD j none).isSome) :
    2 ≤ xs.countP (fun o => o.isSome) := by
  have hi : i < xs.length := lt_trans hij hj
  rw [List.getD_eq_getElem _ _ hi] at hsi
  rw [List.getD_eq_getElem _ _ hj] at hsj
  have h1 : 0 < (xs.take j).countP (fun o => o.isSome) := by
    refine List.countP_pos_iff.mpr ⟨xs[i], ?_, hsi⟩
    rw [List.getElem_take' xs hi hij]
    exact List.getElem_mem _
  have h2 : 0 < (xs.drop j).countP (fun o => o.isSome) := by
    rw [List.drop_eq_getElem_cons hj, List.countP_cons]
    simp [hsj]
  have h3 : (xs.take j).countP (fun o => o.isSome) +
      (xs.drop j).countP (fun o => o.isSome) =
      xs.countP (fun o => o.isSome) := by
    rw [← List.countP_append, List.take_append_drop]
  omega

theorem guard_not_fired (xs : List (Option ℚ)) (h2 : 2 ≤ xs.length)
    (ha : (iloc1 xs).isSome) (hb : (iloc2 xs).isSome) :
    ¬ (xs.length - 1 ≤ nanCount xs) := by
  have hcount := two_le_someCount xs (xs.length - 2) (xs.length - 1)
    (by omega) (by omega) hb ha
  have hadd := nanCount_add_someCount xs
  omega

/-- C1: whenever the current and previous short and long SMAs are all
defined, the verdict is BUY iff `cs > cl` and `ps <= pl`, SELL iff
`cs < cl` and `ps >= pl`, and HOLD in every other case. -/
theorem C1_crossover_rule (g : MAGen) (df : DataFrame)
    (close : List (Option ℚ)) (cs ps cl pl : ℚ)
    (hs1 : 1 ≤ g.short_window) (hsl : g.short_window < g.long_window)
    (hc : df.getClose = some close)
    (hcs : iloc1 (rollingMean g.short_window close) = some cs)
    (hps : iloc2 (rollingMean g.short_window close) = some ps)
    (hcl : iloc1 (rollingMean g.long_window close) = some cl)
    (hpl : iloc2 (rollingMean g.long_window close) = some pl) :
    (generate_signal g (PyObject.df df) = "BUY" ↔ cl < cs ∧ ps ≤ pl) ∧
    (generate_signal g (PyObject.df df) = "SELL" ↔ cs < cl ∧ pl ≤ ps) ∧
    (generate_signal g (PyObject.df df) = "HOLD" ↔
      ¬(cl < cs ∧ ps ≤ pl) ∧ ¬(cs < cl ∧ pl ≤ ps)) := by
  obtain ⟨c, hfind⟩ : ∃ c, df.cols.find? (fun c => c.1 == "close") = some c := by
    rcases hfound : df.cols.find? (fun c => c.1 == "close") with _ | c
    · rw [DataFrame.getClose, hfound] at hc
      simp at hc
    · exact ⟨c, hfound⟩
  have hcmem : c ∈ df.cols := List.mem_of_find?_eq_some hfind
  have hc2 : c.2 = close := by
    rw [DataFrame.getClose, hfind] at hc
    simpa using hc
  have hlen : close.length = df.nrows := by
    rw [← hc2]
    exact df.wf c hcmem
  have hcolsne : df.cols ≠ [] := by
    intro h0
    rw [h0] at hfind
    simp [List.find?] at hfind
  have hne : close ≠ [] := by
    rintro rfl
    simp [iloc1, rollingMean] at hcl
  have hn1 : 1 ≤ close.length := List.length_pos.mpr hne
  have hcl' : smaEntry g.long_window close (close.length - 1) = some cl := by
    rw [iloc1, length_rollingMean] at hcl
    rw [← getD_rollingMean _ _ _ (by omega)]
    exact hcl
  have hnL : g.long_window ≤ close.length := by
    have h := window_le_of_smaEntry_isSome g.long_window close (close.length - 1)
      (by rw [hcl']; rfl)
    omega
  have hpl' : smaEntry g.long_window close (close.length - 2) = some pl := by
    rw [iloc2, length_rollingMean] at hpl
    rw [← getD_rollingMean _ _ _ (by omega)]
    exact hpl
  have hn2 : 2 ≤ close.length := by
    have h := window_le_of_smaEntry_isSome g.long_window close (close.length - 2)
      (by rw [hpl']; rfl)
    omega
  have hgshort : ¬ ((rollingMean g.short_window close).length - 1 ≤
      nanCount (rollingMean g.short_window close)) := by
    apply guard_not_fired
    · rw [length_rollingMean]
      omega
    · rw [hcs]
      rfl
    · rw [hps]
      rfl
  have hglong : ¬ ((rollingMean g.long_window close).length - 1 ≤
      nanCount (rollingMean g.long_window close)) := by
    apply guard_not_fired
    · rw [length_rollingMean]
      omega
    · rw [hcl]
      rfl
    · rw [hpl]
      rfl
  have hkey : generate_signal g (PyObject.df df) =
      crossoverDecision (some cs) (some ps) (some cl) (some pl) := by
    simp only [generate_signal]
    rw [if_neg (by push_neg; exact ⟨hcolsne, by omega⟩)]
    rw [hc]
    rw [if_neg (by simp)]
    rw [if_neg (by omega)]
    simp only [Option.getD_some]
    rw [if_neg (not_or.mpr ⟨hgshort, hglong⟩)]
    rw [hcs, hps, hcl, hpl]
  rw [hkey]
  simp only [crossoverDecision]
  by_cases hA : cl < cs ∧ ps ≤ pl
  · rw [if_pos hA]
    exact ⟨⟨fun _ => hA, fun _ => rfl⟩,
      ⟨fun h => absurd h (by decide), fun hB => absurd hB.1 (not_lt.mpr (le_of_lt hA.1))⟩,
      ⟨fun h => absurd h (by decide), fun h => absurd hA h.1⟩⟩
  · rw [if_neg hA]
    by_cases hB : cs < cl ∧ pl ≤ ps
    · rw [if_pos hB]
      exact ⟨⟨fun h => absurd h (by decide), fun h => absurd h hA⟩,
        ⟨fun _ => hB, fun _ => rfl⟩,
        ⟨fun h => absurd h (by decide), fun h => absurd hB h.2⟩⟩
    · rw [if_neg hB]
      exact ⟨⟨fun h => absurd h (by decide), fun h => absurd h hA⟩,
        ⟨fun h => absurd h (by decide), fun h => absurd h hB⟩,
        ⟨fun _ => ⟨hA, hB⟩, fun _ => rfl⟩⟩

/-- C1 witness: the bullish scenario's 8-element prefix with windows
(3, 5): all four trailing SMAs defined, crossover condition met, BUY. -/
theorem C1_crossover_rule_witness :
    generate_signal g35 (PyObject.df (mkCloseDF (bullishCloses.take 8))) =
      "BUY" :=
  (C1_crossover_rule g35 (mkCloseDF (bullishCloses.take 8))
      (bullishCloses.take 8) (55/3) (49/3) (88/5) (84/5)
      (by decide) (by decide) rfl
      (by norm_num [g35, bullishCloses, rollingMean, smaEntry, iloc1,
        List.range_succ, List.filterMap_cons, List.sum_cons])
      (by norm_num [g35, bullishCloses, rollingMean, smaEntry, iloc2,
        List.range_succ, List.filterMap_cons, List.sum_cons])
      (by norm_num [g35, bullishCloses, rollingMean, smaEntry, iloc1,
        List.range_succ, List.filterMap_cons, List.sum_cons])
      (by norm_num [g35, bullishCloses, rollingMean, smaEntry, iloc2,
        List.range_succ, List.filterMap_cons, List.sum_cons])).1.mpr
    ⟨by norm_num, by norm_num⟩

theorem length_close_of_getClose (df : DataFrame) (close : List (Option ℚ))
    (hc : df.getClose = some close) : close.length = df.nrows := by
  rcases hfound : df.cols.find? (fun c => c.1 == "close") with _ | c
  · rw [DataFrame.getClose, hfound] at hc
    simp at hc
  · have hcmem := List.mem_of_find?_eq_some hfound
    have hc2 : c.2 = close := by
      rw [DataFrame.getClose, hfound] at hc
      simpa using hc
    rw [← hc2]
    exact df.wf c hcmem

theorem hold_of_length_le (g : MAGen) (df : DataFrame)
    (hn : df.nrows ≤ g.long_window) :
    generate_signal g (PyObject.df df) = "HOLD" := by
  simp only [generate_signal]
  by_cases he : df.cols = [] ∨ df.nrows = 0
  · rw [if_pos he]
  · rw [if_neg he]
    rcases hclose : df.getClose with _ | close
    · rw [if_pos (by simp [hclose])]
    · rw [if_neg (by simp [hclose])]
      by_cases hlt : df.nrows < g.long_window
      · rw [if_pos hlt]
      · rw [if_neg hlt]
        have hlen := length_close_of_getClose df close hclose
        simp only [Option.getD_some]
        rw [if_pos (Or.inr ?_)]
        rw [length_rollingMean]
        exact nanCount_rollingMean_of_short _ _ (by omega)

/-- C2 counterexample: with windows (3, 5), no series of length exactly
`long_window = 5` can produce a verdict other than HOLD — the NaN-count
guard always fires there — so `long_window` is not the first length
admitting a non-HOLD verdict. -/
theorem C2_counterexample :
    (∃ close : List (Option ℚ), close.length = 5 ∧
      generate_signal g35 (PyObject.df (mkCloseDF close)) ≠ "HOLD") ↔ False := by
  constructor
  · rintro ⟨close, hlen, hne⟩
    refine hne (hold_of_length_le g35 (mkCloseDF close) ?_)
    show close.length ≤ 5
    omega
  · exact False.elim

/-- The series used to exhibit a BUY at length `long_window + 1`:
`long_window` zeroes followed by a single one. -/
def spikeCloses (L : ℕ) : List (Option ℚ) :=
  List.replicate L (some 0) ++ [some 1]

theorem filterMap_id_replicate_some (k : ℕ) (a : ℚ) :
    List.filterMap id (List.replicate k (some a)) = List.replicate k a := by
  induction k with
  | zero => rfl
  | succ m ih => simp [List.replicate_succ, ih]

theorem spike_all_isSome (L : ℕ) : ∀ x ∈ spikeCloses L, x.isSome := by
  intro x hx
  rcases List.mem_append.mp hx with h | h
  · rw [List.eq_of_mem_replicate h]
    rfl
  · simp only [List.mem_singleton] at h
    rw [h]
    rfl

theorem length_spikeCloses (L : ℕ) : (spikeCloses L).length = L + 1 := by
  simp [spikeCloses]

theorem smaEntry_spike_last (w L : ℕ) (h1 : 1 ≤ w) (hwL : w ≤ L) :
    smaEntry w (spikeCloses L) L = some (1 / (w : ℚ)) := by
  rw [smaEntry, if_neg (by omega)]
  have hdrop : (spikeCloses L).drop (L + 1 - w) =
      List.replicate (w - 1) (some (0:ℚ)) ++ [some 1] := by
    rw [spikeCloses, List.drop_append_of_le_length
      (by simp only [List.length_replicate]; omega), List.drop_replicate]
    congr 2
    omega
  simp only [hdrop]
  rw [List.take_of_length_le (by simp; omega)]
  rw [if_pos (by
    refine List.all_eq_true.mpr fun x hx => ?_
    rcases List.mem_append.mp hx with h | h
    · rw [List.eq_of_mem_replicate h]
      rfl
    · simp only [List.mem_singleton] at h
      rw [h]
      rfl)]
  rw [List.filterMap_append, filterMap_id_replicate_some]
  simp [List.sum_replicate]

theorem smaEntry_spike_prev (w L : ℕ) (h1 : 1 ≤ w) (hwL : w ≤ L) :
    smaEntry w (spikeCloses L) (L - 1) = some 0 := by
  rw [smaEntry, if_neg (by omega)]
  have harith : L - 1 + 1 - w = L - w := by omega
  rw [harith]
  have hdrop : (spikeCloses L).drop (L - w) =
      List.replicate w (some (0:ℚ)) ++ [some 1] := by
    rw [spikeCloses, List.drop_append_of_le_length
      (by simp only [List.length_replicate]; omega), List.drop_replicate]
    congr 2
    omega
  simp only [hdrop]
  rw [List.take_append_of_le_length (by simp), List.take_replicate, min_self]
  rw [if_pos (by
    refine List.all_eq_true.mpr fun x hx => ?_
    rw [List.eq_of_mem_replicate hx]
    rfl)]
  rw [filterMap_id_replicate_some]
  simp [List.sum_replicate]

theorem smaEntry_isSome_of_all_isSome (w : ℕ) (xs : List (Option ℚ)) (i : ℕ)
    (hall : ∀ x ∈ xs, x.isSome) (hw : w ≤ i + 1) :
    (smaEntry w xs i).isSome := by
  rw [smaEntry, if_neg (by omega)]
  rw [if_pos (by
    refine List.all_eq_true.mpr fun x hx => ?_
    exact hall x (List.mem_of_mem_drop (List.mem_of_mem_take hx)))]
  rfl

theorem nanCount_rollingMean_all_isSome (w : ℕ) (xs : List (Option ℚ))
    (h1 : 1 ≤ w) (hall : ∀ x ∈ xs, x.isSome) :
    nanCount (rollingMean w xs) = min (w - 1) xs.length := by
  rw [nanCount, rollingMean, List.countP_map]
  rw [List.countP_congr (q := fun i => decide (i < w - 1)) ?_]
  · exact countP_lt_range _ _
  · intro i _
    by_cases hw : i + 1 < w
    · rw [Function.comp_apply, smaEntry_eq_none_of_lt w xs i hw]
      simpa using show i < w - 1 by omega
    · have hsome := smaEntry_isSome_of_all_isSome w xs i hall (by omega)
      rcases Option.isSome_iff_exists.mp hsome with ⟨v, hv⟩
      rw [Function.comp_apply, hv]
      simpa using show ¬ i < w - 1 by omega

theorem getClose_mkCloseDF (close : List (Option ℚ)) :
    (mkCloseDF close).getClose = some close := rfl

/-- C2 (amended): every series of length at most `long_window` yields HOLD
(in particular lengths `long_window - 1` and `long_window`), and
`long_window + 1` is the first length at which a non-HOLD verdict is
possible: a series of that length exists on which the verdict is BUY. -/
theorem C2_amended_boundary (g : MAGen) (hs1 : 1 ≤ g.short_window)
    (hsl : g.short_window < g.long_window) :
    (∀ df : DataFrame, df.nrows ≤ g.long_window →
      generate_signal g (PyObject.df df) = "HOLD") ∧
    (∃ close : List (Option ℚ), close.length = g.long_window + 1 ∧
      generate_signal g (PyObject.df (mkCloseDF close)) = "BUY") := by
  refine ⟨fun df hn => hold_of_length_le g df hn,
    ⟨spikeCloses g.long_window, length_spikeCloses _, ?_⟩⟩
  simp only [generate_signal]
  rw [if_neg (by
    simp [mkCloseDF, length_spikeCloses])]
  rw [getClose_mkCloseDF]
  rw [if_neg (by simp)]
  rw [if_neg (by
    simp only [mkCloseDF, length_spikeCloses]
    omega)]
  simp only [Option.getD_some]
  rw [if_neg (by
    push_neg
    constructor <;>
    · rw [length_rollingMean, length_spikeCloses,
        nanCount_rollingMean_all_isSome _ _ (by omega) (spike_all_isSome _),
        length_spikeCloses]
      omega)]
  have hiloc1S : iloc1 (rollingMean g.short_window (spikeCloses g.long_window)) =
      some (1 / (g.short_window : ℚ)) := by
    rw [iloc1, length_rollingMean, length_spikeCloses, Nat.add_sub_cancel]
    rw [getD_rollingMean _ _ _ (by rw [length_spikeCloses]; omega)]
    exact smaEntry_spike_last _ _ (by omega) (by omega)
  have hiloc2S : iloc2 (rollingMean g.short_window (spikeCloses g.long_window)) =
      some 0 := by
    rw [iloc2, length_rollingMean, length_spikeCloses]
    have h2 : g.long_window + 1 - 2 = g.long_window - 1 := by omega
    rw [h2, getD_rollingMean _ _ _ (by rw [length_spikeCloses]; omega)]
    exact smaEntry_spike_prev _ _ (by omega) (by omega)
  have hiloc1L : iloc1 (rollingMean g.long_window (spikeCloses g.long_window)) =
      some (1 / (g.long_window : ℚ)) := by
    rw [iloc1, length_rollingMean, length_spikeCloses, Nat.add_sub_cancel]
    rw [getD_rollingMean _ _ _ (by rw [length_spikeCloses]; omega)]
    exact smaEntry_spike_last _ _ (by omega) (by omega)
  have hiloc2L : iloc2 (rollingMean g.long_window (spikeCloses g.long_window)) =
      some 0 := by
    rw [iloc2, length_rollingMean, length_spikeCloses]
    have h2 : g.long_window + 1 - 2 = g.long_window - 1 := by omega
    rw [h2, getD_rollingMean _ _ _ (by rw [length_spikeCloses]; omega)]
    exact smaEntry_spike_prev _ _ (by omega) (by omega)
  rw [hiloc1S, hiloc2S, hiloc1L, hiloc2L]
  simp only [crossoverDecision]
  have hlt : (1 : ℚ) / (g.long_window : ℚ) < 1 / (g.short_window : ℚ) :=
    one_div_lt_one_div_of_lt (by exact_mod_cast hs1) (by exact_mod_cast hsl)
  rw [if_pos ⟨hlt, le_refl (0:ℚ)⟩]

/-- C2 witness: windows (3, 5) and a five-value series (length exactly
`long_window`): the verdict is HOLD. -/
theorem C2_amended_boundary_witness :
    generate_signal g35
      (PyObject.df (mkCloseDF [some 1, some 2, some 3, some 4, some 5])) =
      "HOLD" :=
  (C2_amended_boundary g35 (by decide) (by decide)).1 _ (by decide)
